import Mathlib

/-!
Shallow embedding of the local_warp terminal assistant core:
the context store (src/terminal/context.py), the command executor
(src/terminal/executor.py), the OpenRouter completion client
(src/llm/openrouter.py) and the prompt builder (src/llm/prompt.py),
together with theorems settling the specification's claims about them.
-/

namespace LocalWarp

/-- The whitespace characters removed by Python's `str.strip()`. -/
def pyIsSpace (c : Char) : Bool :=
  c == ' ' || c == '\t' || c == '\n' || c == '\r' || c == '\x0b' || c == '\x0c'

/-- Python's `str.strip()`: removes leading and trailing whitespace. -/
def pyStrip (s : String) : String :=
  ⟨((s.data.dropWhile pyIsSpace).reverse.dropWhile pyIsSpace).reverse⟩

/-- ASCII lowercasing of one character (the only case change `.lower()`
performs on the confirmation answers this program reads). -/
def pyLowerChar (c : Char) : Char :=
  if 'A' ≤ c ∧ c ≤ 'Z' then Char.ofNat (c.toNat + 32) else c

/-- Python's `str.lower()` on the ASCII answers read by the
confirmation loop. -/
def pyToLower (s : String) : String := ⟨s.data.map pyLowerChar⟩

/-- Python's negative-index slice `l[-k:]` on a list: the last `k`
elements, except that `k = 0` yields the whole list (`l[-0:] = l[0:]`). -/
def pySliceLast (k : Nat) (l : List String) : List String :=
  if k = 0 then l else l.drop (l.length - k)

/-- The last `k` elements of a list (spec-side description of a
FIFO-truncated history). -/
def takeLast (k : Nat) (l : List String) : List String :=
  l.drop (l.length - k)

/-- `TerminalContext` from src/terminal/context.py: system identity,
working directory, bounded command history and last error. -/
structure TerminalContext where
  hostname : String := ""
  osName : String := ""
  osVersion : String := ""
  shellName : String := "bash"
  shellVersion : String := ""
  workingDirectory : String := ""
  commandHistory : List String := []
  lastError : Option String := none
  maxHistory : Nat := 10

deriving instance DecidableEq, Repr for TerminalContext

/-- `TerminalContext.add_command`: appends `command.strip()` when it is
non-empty, then truncates to the last `max_history` entries via the
Python slice `history[-max_history:]` when the cap is exceeded. -/
def TerminalContext.add_command (ctx : TerminalContext) (command : String) :
    TerminalContext :=
  if pyStrip command ≠ "" then
    let h := ctx.commandHistory ++ [pyStrip command]
    { ctx with commandHistory :=
        if ctx.maxHistory < h.length then pySliceLast ctx.maxHistory h else h }
  else ctx

/-- `TerminalContext.set_last_error`. -/
def TerminalContext.set_last_error (ctx : TerminalContext) (e : String) :
    TerminalContext :=
  { ctx with lastError := some e }

/-- `TerminalContext.clear_last_error` (sets the field to `None`). -/
def TerminalContext.clear_last_error (ctx : TerminalContext) :
    TerminalContext :=
  { ctx with lastError := none }

/-- Folding a sequence of submitted commands into the store, one
`add_command` call per element. -/
def addAll (ctx : TerminalContext) (cmds : List String) : TerminalContext :=
  cmds.foldl TerminalContext.add_command ctx

/-- `CommandResult` from src/terminal/executor.py. -/
structure CommandResult where
  success : Bool
  command : String
  stdout : String
  stderr : String
  returnCode : Int

deriving instance DecidableEq, Repr for CommandResult

/-- Outcome of the subprocess boundary (`subprocess.Popen` +
`communicate`): normal completion with captured streams and exit code,
`TimeoutExpired`, or any other spawn/execution exception. -/
inductive ProcOutcome where
  | completed (stdout stderr : String) (returnCode : Int)
  | timedOut
  | spawnFailure (msg : String)

deriving instance DecidableEq, Repr for ProcOutcome

/-- What `execute_command` produces: the `CommandResult`, the updated
context, and whether the subprocess boundary was entered at all. -/
structure ExecOutput where
  result : CommandResult
  ctx : TerminalContext
  spawned : Bool

deriving instance DecidableEq, Repr for ExecOutput

/-- One line read in the confirmation loop: `.strip().lower()` then
matched against y/yes/n/no; anything else re-prompts. -/
def parseConfirmResponse (s : String) : Option Bool :=
  let r := pyToLower (pyStrip s)
  if r = "y" ∨ r = "yes" then some true
  else if r = "n" ∨ r = "no" then some false
  else none

/-- `CommandExecutor.ask_confirmation`: loops over the caller's input
lines until one is recognized; `none` models the loop never receiving a
recognizable answer (it blocks forever in the source). -/
def ask_confirmation : List String → Option Bool
  | [] => none
  | r :: rs =>
    match parseConfirmResponse r with
    | some b => some b
    | none => ask_confirmation rs

/-- Python's rendering of the `timeout` argument inside the f-string
`f"Command timed out after {timeout} seconds."` (an `Optional[int]`). -/
def pyShowOptInt : Option Int → String
  | some v => toString v
  | none => "None"

/-- The timeout message built in the `TimeoutExpired` handler. -/
def timeoutMsg (timeout : Option Int) : String :=
  "Command timed out after " ++ pyShowOptInt timeout ++ " seconds."

/-- `CommandExecutor.execute_command`. `responses` are the caller's
confirmation input lines, `outcome` is what the subprocess boundary
does, `killFails` tells whether the best-effort `process.kill()` in the
timeout handler raises (the handler swallows it). The result is `none`
only when a required confirmation never resolves (the source blocks). -/
def execute_command (ctx : TerminalContext) (command : String)
    (timeout : Option Int) (requireConfirmation : Bool)
    (responses : List String) (outcome : ProcOutcome) (killFails : Bool) :
    Option ExecOutput :=
  let ctx1 := ctx.add_command command
  let confirmed : Option Bool :=
    if requireConfirmation then ask_confirmation responses else some true
  match confirmed with
  | none => none
  | some false =>
    some ⟨⟨false, command, "", "Command execution cancelled by user.", -1⟩,
      ctx1, false⟩
  | some true =>
    match outcome with
    | .completed stdout stderr rc =>
      let ctx2 := if rc ≠ 0 then ctx1.set_last_error (pyStrip stderr)
        else ctx1.clear_last_error
      some ⟨⟨rc == 0, command, pyStrip stdout, pyStrip stderr, rc⟩, ctx2, true⟩
    | .timedOut =>
      -- `process.kill()` may fail; the handler ignores `killFails`.
      let msg := timeoutMsg timeout
      some ⟨⟨false, command, "", msg, -1⟩, ctx1.set_last_error msg, true⟩
    | .spawnFailure m =>
      let msg := "Error executing command: " ++ m
      some ⟨⟨false, command, "", msg, -1⟩, ctx1.set_last_error msg, true⟩

/-- A fresh default context: empty history, no error, `max_history = 10`. -/
def sampleCtx : TerminalContext := {}

/-- The trimmed, non-empty entries of a submitted command sequence: the
entries that `add_command` actually stores. -/
def effectiveCmds (cmds : List String) : List String :=
  (cmds.filter (fun c => pyStrip c ≠ "")).map pyStrip

/-- The `message` object of one chat-completion choice: `content` is
`none` when the `"content"` key is absent. -/
structure MessageObj where
  content : Option String

deriving instance DecidableEq, Repr for MessageObj

/-- One element of the `choices` array: `message` is `none` when the
`"message"` key is absent. -/
structure ChatChoice where
  message : Option MessageObj

deriving instance DecidableEq, Repr for ChatChoice

/-- The parsed JSON body of an HTTP 200 response: `choices` is `none`
when the `"choices"` key is absent (a present empty list is falsy in the
source's truthiness test, handled in `parse_command_response`). -/
structure ResponseData where
  choices : Option (List ChatChoice)

deriving instance DecidableEq, Repr for ResponseData

/-- The completion text at `choices[0].message.content`, when every key
on that path is present (spec-side accessor). -/
def contentOf (r : ResponseData) : Option String :=
  match r.choices with
  | some (ch :: _) =>
    match ch.message with
    | some m => m.content
    | none => none
  | _ => none

/-- `OpenRouterClient._parse_command_response`: checks `"choices" in
response_data and response_data["choices"]`, then `"message" in choice
and "content" in choice["message"]`; on success returns the stripped
content, otherwise the fixed parse-failure message. -/
def parse_command_response (r : ResponseData) : Bool × String :=
  match r.choices with
  | some (ch :: _) =>
    match ch.message with
    | some m =>
      match m.content with
      | some c => (true, pyStrip c)
      | none => (false, "Failed to parse command from response")
    | none => (false, "Failed to parse command from response")
  | _ => (false, "Failed to parse command from response")

/-- What one `requests.post` attempt yields: an HTTP response, a
`requests.exceptions.Timeout`, or another `RequestException`. -/
inductive HttpResponse where
  | ok (body : ResponseData)
  | unauthorized
  | rateLimited (retryAfter : Option String)
  | other (code : Nat) (text : String)

deriving instance DecidableEq, Repr for HttpResponse

/-- Outcome of one attempt at the transport boundary. -/
inductive AttemptOutcome where
  | response (r : HttpResponse)
  | timedOut
  | requestFailure (msg : String)

deriving instance DecidableEq, Repr for AttemptOutcome

/-- Accumulates digits of a numeral, failing on a non-digit. -/
def parseDigitsAux : List Char → Nat → Option Nat
  | [], acc => some acc
  | c :: cs, acc =>
    if c.isDigit then parseDigitsAux cs (acc * 10 + (c.toNat - '0'.toNat))
    else none

/-- Python's `int(s)` on the header strings this program meets: strips
whitespace, accepts an optional sign followed by at least one digit,
raises `ValueError` (here `none`) otherwise. -/
def pyParseInt (s : String) : Option Int :=
  let t := pyStrip s
  match t.toList with
  | [] => none
  | '+' :: cs => if cs = [] then none else (parseDigitsAux cs 0).map Int.ofNat
  | '-' :: cs =>
    if cs = [] then none else (parseDigitsAux cs 0).map (fun n => -(n : Int))
  | cs => (parseDigitsAux cs 0).map Int.ofNat

/-- Retry configuration of `OpenRouterClient` (defaults: `max_retries=3`,
`retry_delay=1.0`). -/
structure ClientConfig where
  maxRetries : Nat := 3
  retryDelay : Int := 1

deriving instance DecidableEq, Repr for ClientConfig

/-- What `generate_command` produced: the `(success, text)` pair, the
number of HTTP requests made, and every `time.sleep` duration in order. -/
structure GenOutcome where
  result : Bool × String
  requestsMade : Nat
  sleeps : List Int

deriving instance DecidableEq, Repr for GenOutcome

/-- The retry loop of `OpenRouterClient.generate_command`, one recursive
step per iteration of `for attempt in range(self.max_retries)`. `fuel`
is the number of remaining iterations (`maxRetries - attempt`), `oracle`
gives each attempt's outcome at the transport boundary.

Branch notes, matching the source:
- 200: returns `_parse_command_response(response.json())`.
- 401: `raise AuthenticationError("Invalid API key")` is caught by the
  function's own `except Exception` handler, which returns
  `(False, f"Unexpected error: {e}")`.
- 429: `int(response.headers.get("Retry-After", str(2 ** attempt)))` —
  an absent header sleeps `2 ** attempt` (the `int(str(·))` round trip
  is the identity); a present header that `int` rejects raises
  `ValueError` into the same `except Exception` handler; a negative
  parsed value makes `time.sleep` raise `ValueError` likewise.
- other status: returns the `API error:` message, no retry.
- transport timeout: sleeps `retry_delay * 2 ** attempt` and retries,
  except on the last iteration, where it returns `Request timed out`.
- other `RequestException`: returns the `Request error:` message.
Falling out of the loop returns `Max retries exceeded`. -/
def genLoop (cfg : ClientConfig) (oracle : Nat → AttemptOutcome) :
    Nat → Nat → List Int → GenOutcome
  | attempt, 0, sleeps => ⟨(false, "Max retries exceeded"), attempt, sleeps⟩
  | attempt, fuel + 1, sleeps =>
    match oracle attempt with
    | .response (.ok body) => ⟨parse_command_response body, attempt + 1, sleeps⟩
    | .response .unauthorized =>
      ⟨(false, "Unexpected error: Invalid API key"), attempt + 1, sleeps⟩
    | .response (.rateLimited hdr) =>
      match hdr with
      | none => genLoop cfg oracle (attempt + 1) fuel (sleeps ++ [(2 : Int) ^ attempt])
      | some s =>
        match pyParseInt s with
        | none =>
          ⟨(false, "Unexpected error: invalid literal for int() with base 10: '"
            ++ s ++ "'"), attempt + 1, sleeps⟩
        | some v =>
          if v < 0 then
            ⟨(false, "Unexpected error: sleep length must be non-negative"),
              attempt + 1, sleeps⟩
          else genLoop cfg oracle (attempt + 1) fuel (sleeps ++ [v])
    | .response (.other code text) =>
      ⟨(false, "API error: " ++ toString code ++ " - " ++ text),
        attempt + 1, sleeps⟩
    | .timedOut =>
      if attempt + 1 < cfg.maxRetries then
        genLoop cfg oracle (attempt + 1) fuel (sleeps ++ [cfg.retryDelay * 2 ^ attempt])
      else ⟨(false, "Request timed out"), attempt + 1, sleeps⟩
    | .requestFailure msg =>
      ⟨(false, "Request error: " ++ msg), attempt + 1, sleeps⟩

/-- `OpenRouterClient.generate_command`, as a function of the per-attempt
transport outcomes. -/
def generate_command (cfg : ClientConfig) (oracle : Nat → AttemptOutcome) :
    GenOutcome :=
  genLoop cfg oracle 0 cfg.maxRetries []

/-- The system message of src/llm/prompt.py (`get_system_message`). -/
def get_system_message : String :=
  "\nYou are a helpful terminal assistant that translates natural language requests into executable bash commands.\n\nINSTRUCTIONS:\n1. Your response should ONLY contain the bash command without any explanations, markdown formatting, or additional text. \n2. The user will confirm or reject your proposed command before execution.\n3. Use the current working directory and terminal context provided to generate appropriate commands.\n4. Choose the most efficient and correct command for the user's request.\n5. Do not include ```bash, ```, or any other markdown formatting in your response.\n6. Use appropriate flags and options for user-friendly output (e.g., -h for human-readable output in commands like ls -lh).\n\nEXAMPLES:\nRequest: \"Show me the largest files in this directory\"\nResponse: find . -type f -exec du -h \x7b\x7d \\; | sort -rh | head -n 10\n\nRequest: \"Create a backup of my config file\"\nResponse: cp ~/.config/myapp/config.yaml ~/.config/myapp/config.yaml.bak\n\nRequest: \"How much disk space do I have left\"\nResponse: df -h\n"

/-- `format_terminal_history`: the last `max_commands` history entries
(empty when the history is empty), rendered numbered from 1, or the
no-previous-commands sentinel. -/
def format_terminal_history (ctx : TerminalContext) (maxCommands : Nat := 5) :
    String :=
  let history :=
    if ctx.commandHistory.isEmpty then [] else pySliceLast maxCommands ctx.commandHistory
  if history.isEmpty then "No previous commands in history."
  else "Recent commands:\n" ++
    String.join (history.enum.map (fun p => toString (p.1 + 1) ++ ". " ++ p.2 ++ "\n"))

/-- `format_error_context`: the error line when `last_error` is truthy
(neither `None` nor the empty string), else the empty string. -/
def format_error_context (ctx : TerminalContext) : String :=
  match ctx.lastError with
  | some e => if e = "" then "" else "Last error message: " ++ e
  | none => ""

/-- `format_system_context`. -/
def format_system_context (ctx : TerminalContext) : String :=
  "OS: " ++ ctx.osName ++ " " ++ ctx.osVersion ++ "\n" ++
  "Shell: " ++ ctx.shellName ++ " " ++ ctx.shellVersion ++ "\n" ++
  "Host: " ++ ctx.hostname

/-- The `prompt_parts` list assembled by `build_prompt` (after the
working-directory refresh): four fixed leading sections, the error
section only when `format_error_context` is non-empty, then the trailing
sections ending in the `COMMAND:` cue. -/
def build_promptParts (query : String) (ctx : TerminalContext) : List String :=
  let workingDir := "Current working directory: " ++ ctx.workingDirectory
  let history := format_terminal_history ctx
  let error := format_error_context ctx
  let systemInfo := format_system_context ctx
  let parts := [get_system_message, "TERMINAL CONTEXT:", workingDir, history]
  let parts := if error ≠ "" then parts ++ [error] else parts
  parts ++ [systemInfo, "", "USER REQUEST:", query, "", "COMMAND:"]

/-- Python's `sep.join(parts)`. -/
def pyJoin (sep : String) (parts : List String) : String :=
  match parts with
  | [] => ""
  | p :: rest => rest.foldl (fun acc q => acc ++ sep ++ q) p

/-- `build_prompt`: refreshes the working directory (modelled by the
`freshCwd` argument, the value of `os.getcwd()` at build time), then
joins the assembled parts with newlines. -/
def build_prompt (query : String) (ctx : TerminalContext) (freshCwd : String) :
    String :=
  pyJoin "\n" (build_promptParts query { ctx with workingDirectory := freshCwd })

/-- Spec-side rendering of a history block: entries numbered 1..N in
order, most recent last. -/
def numberedBlock (entries : List String) : String :=
  "Recent commands:\n" ++
    String.join (entries.enum.map (fun p => toString (p.1 + 1) ++ ". " ++ p.2 ++ "\n"))

/-- The server-advised sleep for attempt `i`: the parsed `Retry-After`
header when one is provided, else `2 ^ i`. -/
def advisedOk (hdrs : Nat → Option String) (v : Nat → Int) (i : Nat) : Prop :=
  match hdrs i with
  | none => v i = 2 ^ i
  | some s => pyParseInt s = some (v i) ∧ 0 ≤ v i

/-- A context carrying one history entry and a non-empty last error. -/
def errCtx : TerminalContext :=
  { sampleCtx with commandHistory := ["ls"], lastError := some "boom" }

lemma add_command_lastError (ctx : TerminalContext) (c : String) :
    (ctx.add_command c).lastError = ctx.lastError := by
  unfold TerminalContext.add_command
  split <;> rfl

lemma add_command_maxHistory (ctx : TerminalContext) (c : String) :
    (ctx.add_command c).maxHistory = ctx.maxHistory := by
  unfold TerminalContext.add_command
  split <;> rfl

lemma takeLast_length_le (k : Nat) (l : List String) :
    (takeLast k l).length ≤ k := by
  simp only [takeLast, List.length_drop]
  omega

lemma takeLast_of_le (k : Nat) (l : List String) (h : l.length ≤ k) :
    takeLast k l = l := by
  simp [takeLast, Nat.sub_eq_zero_of_le h]

lemma takeLast_append_right (k : Nat) (l m : List String) :
    takeLast k (takeLast k l ++ m) = takeLast k (l ++ m) := by
  rcases le_or_lt k l.length with hk | hk
  · unfold takeLast
    simp only [List.length_append, List.length_drop]
    have e1 : l.length - (l.length - k) + m.length - k = m.length := by omega
    have e2 : l.length + m.length - k = (l.length - k) + m.length := by omega
    rw [e1, e2, ← List.drop_drop,
      List.drop_append_of_le_length (by omega : l.length - k ≤ l.length)]
  · rw [takeLast_of_le k l (le_of_lt hk)]

lemma add_command_skip (ctx : TerminalContext) (c : String)
    (hc : pyStrip c = "") : ctx.add_command c = ctx := by
  simp [TerminalContext.add_command, hc]

lemma add_command_history (ctx : TerminalContext) (c : String)
    (hc : pyStrip c ≠ "") (hpos : 0 < ctx.maxHistory) :
    (ctx.add_command c).commandHistory =
      takeLast ctx.maxHistory (ctx.commandHistory ++ [pyStrip c]) := by
  simp only [TerminalContext.add_command, hc, if_pos, ite_not, if_neg,
    not_true_eq_false, if_false]
  split
  · unfold pySliceLast takeLast
    rw [if_neg (by omega : ¬ ctx.maxHistory = 0)]
  · rw [takeLast_of_le _ _ (by omega)]

lemma addAll_history (cmds : List String) : ∀ ctx : TerminalContext,
    0 < ctx.maxHistory → ctx.commandHistory.length ≤ ctx.maxHistory →
    (addAll ctx cmds).commandHistory =
      takeLast ctx.maxHistory (ctx.commandHistory ++ effectiveCmds cmds) := by
  induction cmds with
  | nil =>
    intro ctx hpos hlen
    simp only [addAll, List.foldl_nil, effectiveCmds, List.filter_nil,
      List.map_nil, List.append_nil]
    exact (takeLast_of_le _ _ hlen).symm
  | cons c rest ih =>
    intro ctx hpos hlen
    by_cases hc : pyStrip c = ""
    · have : addAll ctx (c :: rest) = addAll ctx rest := by
        simp [addAll, add_command_skip ctx c hc]
      rw [this, ih ctx hpos hlen]
      simp [effectiveCmds, hc]
    · have hmax := add_command_maxHistory ctx c
      have hhist := add_command_history ctx c hc hpos
      have hlen' : (ctx.add_command c).commandHistory.length ≤
          (ctx.add_command c).maxHistory := by
        rw [hhist, hmax]; exact takeLast_length_le _ _
      have step : addAll ctx (c :: rest) = addAll (ctx.add_command c) rest := by
        simp [addAll]
      rw [step, ih (ctx.add_command c) (hmax ▸ hpos) hlen', hmax, hhist,
        takeLast_append_right]
      simp [effectiveCmds, hc]

/-- C1: for every command string, when `execute_command` runs with
`require_confirmation=true` and the caller answers "no", the result has
`success=false`, `return_code=-1` and the cancellation notice in
`stderr`, no subprocess is spawned, and `last_error` is unchanged from
its value before the call. -/
theorem C1_cancel_result (ctx : TerminalContext) (command : String)
    (timeout : Option Int) (responses : List String) (outcome : ProcOutcome)
    (killFails : Bool) (h : ask_confirmation responses = some false) :
    execute_command ctx command timeout true responses outcome killFails =
      some ⟨⟨false, command, "", "Command execution cancelled by user.", -1⟩,
        ctx.add_command command, false⟩ ∧
    (ctx.add_command command).lastError = ctx.lastError := by
  refine ⟨?_, add_command_lastError ctx command⟩
  simp [execute_command, h]

theorem C1_cancel_result_witness :
    ask_confirmation ["n"] = some false ∧
    (execute_command sampleCtx "ls" (some 60) true ["n"]
        (.completed "out" "err" 0) false =
      some ⟨⟨false, "ls", "", "Command execution cancelled by user.", -1⟩,
        sampleCtx.add_command "ls", false⟩ ∧
      (sampleCtx.add_command "ls").lastError = sampleCtx.lastError) :=
  ⟨by decide, C1_cancel_result sampleCtx "ls" (some 60) ["n"]
    (.completed "out" "err" 0) false (by decide)⟩

/-- C5: for every execution that completes normally, `success` holds iff
the return code is 0; a non-zero code sets `last_error` to the trimmed
stderr, a zero code clears it, and stdout/stderr are stored trimmed. -/
theorem C5_completed_result (ctx : TerminalContext) (command : String)
    (timeout : Option Int) (requireConf : Bool) (responses : List String)
    (stdout stderr : String) (rc : Int) (killFails : Bool)
    (h : requireConf = false ∨ ask_confirmation responses = some true) :
    ∃ out, execute_command ctx command timeout requireConf responses
        (.completed stdout stderr rc) killFails = some out ∧
      (out.result.success = true ↔ rc = 0) ∧
      out.result.stdout = pyStrip stdout ∧
      out.result.stderr = pyStrip stderr ∧
      out.result.returnCode = rc ∧
      (rc ≠ 0 → out.ctx.lastError = some (pyStrip stderr)) ∧
      (rc = 0 → out.ctx.lastError = none) := by
  have hc : (if requireConf then ask_confirmation responses else some true) =
      some true := by
    rcases h with h | h
    · simp [h]
    · cases requireConf <;> simp [h]
  refine ⟨⟨⟨rc == 0, command, pyStrip stdout, pyStrip stderr, rc⟩,
    if rc ≠ 0 then (ctx.add_command command).set_last_error (pyStrip stderr)
      else (ctx.add_command command).clear_last_error, true⟩,
    ?_, ?_, rfl, rfl, rfl, ?_, ?_⟩
  · simp [execute_command, hc]
  · simp
  · intro hrc; simp [hrc, TerminalContext.set_last_error]
  · intro hrc; simp [hrc, TerminalContext.clear_last_error]

theorem C5_completed_result_witness :
    ∃ out, execute_command sampleCtx "cat missing" (some 60) false []
        (.completed " data " " boom " 2) false = some out ∧
      (out.result.success = true ↔ (2 : Int) = 0) ∧
      out.result.stdout = pyStrip " data " ∧
      out.result.stderr = pyStrip " boom " ∧
      out.result.returnCode = 2 ∧
      ((2 : Int) ≠ 0 → out.ctx.lastError = some (pyStrip " boom ")) ∧
      ((2 : Int) = 0 → out.ctx.lastError = none) :=
  C5_completed_result sampleCtx "cat missing" (some 60) false []
    " data " " boom " 2 false (Or.inl rfl)

/-- C6: for every command whose execution times out, the result has
`success=false`, `return_code=-1`, `stderr` equal to the timeout message
carrying the configured timeout value, `last_error` is set to the same
message, and the outcome is the same whether or not the best-effort
`process.kill()` fails. -/
theorem C6_timeout_result (ctx : TerminalContext) (command : String) (t : Int)
    (requireConf : Bool) (responses : List String) (killFails : Bool)
    (h : requireConf = false ∨ ask_confirmation responses = some true) :
    execute_command ctx command (some t) requireConf responses
        .timedOut killFails =
      some ⟨⟨false, command, "", timeoutMsg (some t), -1⟩,
        (ctx.add_command command).set_last_error (timeoutMsg (some t)), true⟩ ∧
    timeoutMsg (some t) =
      "Command timed out after " ++ toString t ++ " seconds." ∧
    ((ctx.add_command command).set_last_error (timeoutMsg (some t))).lastError =
      some (timeoutMsg (some t)) ∧
    execute_command ctx command (some t) requireConf responses
        .timedOut (!killFails) =
      execute_command ctx command (some t) requireConf responses
        .timedOut killFails := by
  have hc : (if requireConf then ask_confirmation responses else some true) =
      some true := by
    rcases h with h | h
    · simp [h]
    · cases requireConf <;> simp [h]
  refine ⟨?_, rfl, rfl, rfl⟩
  simp [execute_command, hc]

theorem C6_timeout_result_witness :
    execute_command sampleCtx "sleep 100" (some 5) false [] .timedOut false =
      some ⟨⟨false, "sleep 100", "", timeoutMsg (some 5), -1⟩,
        (sampleCtx.add_command "sleep 100").set_last_error (timeoutMsg (some 5)),
        true⟩ ∧
    timeoutMsg (some 5) =
      "Command timed out after " ++ toString (5 : Int) ++ " seconds." ∧
    ((sampleCtx.add_command "sleep 100").set_last_error
        (timeoutMsg (some 5))).lastError = some (timeoutMsg (some 5)) ∧
    execute_command sampleCtx "sleep 100" (some 5) false [] .timedOut (!false) =
      execute_command sampleCtx "sleep 100" (some 5) false [] .timedOut false :=
  C6_timeout_result sampleCtx "sleep 100" 5 false [] false (Or.inl rfl)

/-- C7 counterexample: `add_command` stores the trimmed command, so
after proposing `"  ls  "` the history holds `"ls"` and never the raw
string — the raw command string is not what gets appended. -/
theorem C7_counterexample :
    (execute_command sampleCtx "  ls  " (some 60) false []
        (.completed "" "" 0) false).map (fun o => o.ctx.commandHistory) =
      some ["ls"] ∧
    "  ls  " ∉ (["ls"] : List String) := by
  refine ⟨?_, by decide⟩
  decide

/-- C7 amended: for every command string, the trimmed command string is
appended to the history before any confirmation prompt or execution
attempt — the recorded history is the same on every path, including
cancellation — except that a command that is empty after trimming is
not recorded at all. -/
theorem C7_history_recorded (ctx : TerminalContext) (command : String)
    (timeout : Option Int) (requireConf : Bool) (responses : List String)
    (outcome : ProcOutcome) (killFails : Bool) (out : ExecOutput)
    (h : execute_command ctx command timeout requireConf responses outcome
      killFails = some out) :
    out.ctx.commandHistory = (ctx.add_command command).commandHistory ∧
    (pyStrip command ≠ "" →
      ∃ pre, (ctx.add_command command).commandHistory =
        pre ++ [pyStrip command]) ∧
    (pyStrip command = "" →
      (ctx.add_command command).commandHistory = ctx.commandHistory) := by
  refine ⟨?_, ?_, ?_⟩
  · rcases hconf : (if requireConf then ask_confirmation responses
        else some true) with _ | b
    · simp [execute_command, hconf] at h
    · cases b
      · simp [execute_command, hconf] at h
        rw [← h]
      · cases outcome with
        | completed o e rc =>
          simp [execute_command, hconf] at h
          rw [← h]
          split <;>
            simp [TerminalContext.set_last_error, TerminalContext.clear_last_error]
        | timedOut =>
          simp [execute_command, hconf] at h
          rw [← h]
          simp [TerminalContext.set_last_error]
        | spawnFailure m =>
          simp [execute_command, hconf] at h
          rw [← h]
          simp [TerminalContext.set_last_error]
  · intro hne
    simp only [TerminalContext.add_command, hne, if_pos, ite_not, if_neg,
      not_true_eq_false, if_false]
    split
    · unfold pySliceLast
      split
      · exact ⟨ctx.commandHistory, rfl⟩
      · rename_i hcap hzero
        refine ⟨ctx.commandHistory.drop
          ((ctx.commandHistory ++ [pyStrip command]).length - ctx.maxHistory),
          ?_⟩
        rw [List.drop_append_of_le_length]
        simp only [List.length_append, List.length_singleton] at hcap ⊢
        omega
    · exact ⟨ctx.commandHistory, rfl⟩
  · intro he
    simp [TerminalContext.add_command, he]

theorem C7_history_recorded_witness :
    ((execute_command sampleCtx " pwd " (some 60) true ["n"]
        (.completed "" "" 0) false).map (fun o => o.ctx.commandHistory) =
      some ["pwd"]) ∧
    (pyStrip " pwd " ≠ "" →
      ∃ pre, (sampleCtx.add_command " pwd ").commandHistory =
        pre ++ [pyStrip " pwd "]) := by
  refine ⟨by decide, ?_⟩
  exact (C7_history_recorded sampleCtx " pwd " (some 60) true ["n"]
    (.completed "" "" 0) false
    ⟨⟨false, " pwd ", "", "Command execution cancelled by user.", -1⟩,
      sampleCtx.add_command " pwd ", false⟩ (by decide)).2.1

/-- C8 counterexample: a whitespace-only submission is dropped by
`add_command`, so after submitting `["echo", "   "]` the history is
`["echo"]`, not the last two submitted commands. -/
theorem C8_counterexample :
    (addAll sampleCtx ["echo", "   "]).commandHistory = ["echo"] ∧
    (["echo"] : List String) ≠ ["echo", "   "] := by
  refine ⟨?_, by decide⟩
  decide

/-- C8 amended: starting from an empty history with any positive
`max_history`, after any sequence of submissions the history length
never exceeds `max_history` and the contents equal the last
`max_history` of the trimmed non-empty submitted commands, in
submission order (oldest evicted first). -/
theorem C8_history_bound (cmds : List String) (ctx : TerminalContext)
    (h0 : ctx.commandHistory = []) (hpos : 0 < ctx.maxHistory) :
    (addAll ctx cmds).commandHistory =
      takeLast ctx.maxHistory (effectiveCmds cmds) ∧
    (addAll ctx cmds).commandHistory.length ≤ ctx.maxHistory := by
  have hmain := addAll_history cmds ctx hpos (by rw [h0]; simp)
  rw [h0] at hmain
  simp only [List.nil_append] at hmain
  exact ⟨hmain, by rw [hmain]; exact takeLast_length_le _ _⟩

theorem C8_history_bound_witness :
    (addAll sampleCtx ["c1", "c2", "c3", "c4", "c5", "c6", "c7", "c8", "c9",
        "c10", "c11", "c12"]).commandHistory =
      takeLast sampleCtx.maxHistory (effectiveCmds ["c1", "c2", "c3", "c4",
        "c5", "c6", "c7", "c8", "c9", "c10", "c11", "c12"]) ∧
    (addAll sampleCtx ["c1", "c2", "c3", "c4", "c5", "c6", "c7", "c8", "c9",
        "c10", "c11", "c12"]).commandHistory.length ≤ sampleCtx.maxHistory :=
  C8_history_bound ["c1", "c2", "c3", "c4", "c5", "c6", "c7", "c8", "c9",
    "c10", "c11", "c12"] sampleCtx rfl (by decide)

lemma genLoop_first (cfg : ClientConfig) (oracle : Nat → AttemptOutcome)
    (hpos : 0 < cfg.maxRetries) :
    generate_command cfg oracle =
      genLoop cfg oracle 0 ((cfg.maxRetries - 1) + 1) [] := by
  unfold generate_command
  congr 1
  omega

/-- C2 counterexample: an HTTP 200 body whose `content` field is
whitespace-only is forwarded as a *successful* result carrying the empty
command string — no `ParseError` is returned. -/
theorem C2_counterexample :
    generate_command {}
        (fun _ => .response (.ok ⟨some [⟨some ⟨some "   "⟩⟩]⟩)) =
      ⟨(true, ""), 1, []⟩ ∧
    ((true, "") : Bool × String) ≠
      (false, "Failed to parse command from response") := by
  refine ⟨?_, by decide⟩
  decide

/-- C2 amended: on HTTP 200, an *absent* completion text field (missing
or empty `choices`, missing `message`, or missing `content`) yields the
parse failure after one attempt; a *present* content field — even one
that is empty after trimming — yields success carrying the trimmed
content. -/
theorem C2_parse_on_200 (cfg : ClientConfig) (oracle : Nat → AttemptOutcome)
    (body : ResponseData) (hpos : 0 < cfg.maxRetries)
    (h : oracle 0 = .response (.ok body)) :
    generate_command cfg oracle = ⟨parse_command_response body, 1, []⟩ ∧
    (contentOf body = none →
      parse_command_response body =
        (false, "Failed to parse command from response")) ∧
    (∀ c, contentOf body = some c →
      parse_command_response body = (true, pyStrip c)) := by
  refine ⟨?_, ?_, ?_⟩
  · rw [genLoop_first cfg oracle hpos]
    simp [genLoop, h]
  · intro hc
    unfold parse_command_response
    unfold contentOf at hc
    rcases body with ⟨_ | ⟨_ | ⟨ch, rest⟩⟩⟩
    · rfl
    · rfl
    · rcases ch with ⟨_ | ⟨m⟩⟩
      · rfl
      · rcases m with ⟨_ | ⟨c⟩⟩
        · rfl
        · simp at hc
  · intro c hc
    unfold parse_command_response
    unfold contentOf at hc
    rcases body with ⟨_ | ⟨_ | ⟨ch, rest⟩⟩⟩
    · simp at hc
    · simp at hc
    · rcases ch with ⟨_ | ⟨m⟩⟩
      · simp at hc
      · rcases m with ⟨_ | ⟨c'⟩⟩
        · simp at hc
        · simp at hc
          rw [hc]

theorem C2_parse_on_200_witness :
    generate_command {} (fun _ => .response (.ok ⟨some [⟨some ⟨none⟩⟩]⟩)) =
      ⟨parse_command_response ⟨some [⟨some ⟨none⟩⟩]⟩, 1, []⟩ ∧
    (contentOf ⟨some [⟨some ⟨none⟩⟩]⟩ = none →
      parse_command_response ⟨some [⟨some ⟨none⟩⟩]⟩ =
        (false, "Failed to parse command from response")) ∧
    (∀ c, contentOf ⟨some [⟨some ⟨none⟩⟩]⟩ = some c →
      parse_command_response ⟨some [⟨some ⟨none⟩⟩]⟩ = (true, pyStrip c)) :=
  C2_parse_on_200 {} (fun _ => .response (.ok ⟨some [⟨some ⟨none⟩⟩]⟩))
    ⟨some [⟨some ⟨none⟩⟩]⟩ (by decide) rfl

/-- C3: when the first attempt receives HTTP 401, `generate_command`
returns a failure after exactly one request, with no sleep and no retry;
the internally raised `AuthenticationError` is caught at the client
boundary (by its generic handler) and surfaces as the auth-specific
message `Unexpected error: Invalid API key`, which is distinct from
every transient failure message. -/
theorem C3_auth_fail_fast (cfg : ClientConfig) (oracle : Nat → AttemptOutcome)
    (hpos : 0 < cfg.maxRetries) (h : oracle 0 = .response .unauthorized) :
    generate_command cfg oracle =
      ⟨(false, "Unexpected error: Invalid API key"), 1, []⟩ ∧
    ("Unexpected error: Invalid API key" : String) ≠ "Request timed out" ∧
    ("Unexpected error: Invalid API key" : String) ≠ "Max retries exceeded" ∧
    (∀ msg, ("Unexpected error: Invalid API key" : String) ≠
      "Request error: " ++ msg) := by
  refine ⟨?_, by decide, by decide, ?_⟩
  · rw [genLoop_first cfg oracle hpos]
    simp [genLoop, h]
  · intro msg hmsg
    rw [String.ext_iff, String.data_append] at hmsg
    simp at hmsg

theorem C3_auth_fail_fast_witness :
    generate_command {} (fun _ => .response .unauthorized) =
      ⟨(false, "Unexpected error: Invalid API key"), 1, []⟩ ∧
    ("Unexpected error: Invalid API key" : String) ≠ "Request timed out" ∧
    ("Unexpected error: Invalid API key" : String) ≠ "Max retries exceeded" ∧
    (∀ msg, ("Unexpected error: Invalid API key" : String) ≠
      "Request error: " ++ msg) :=
  C3_auth_fail_fast {} (fun _ => .response .unauthorized) (by decide) rfl

lemma range_map_shift (v : Nat → Int) (attempt fuel : Nat) :
    (List.range (fuel + 1)).map (fun j => v (attempt + j)) =
      v attempt :: (List.range fuel).map (fun j => v (attempt + 1 + j)) := by
  rw [List.range_succ_eq_map, List.map_cons, List.map_map]
  congr 1
  apply List.map_congr_left
  intro a _
  simp only [Function.comp]
  congr 1
  omega

lemma genLoop_all429 (cfg : ClientConfig) (hdrs : Nat → Option String)
    (v : Nat → Int) : ∀ (fuel attempt : Nat) (sleeps : List Int),
    (∀ i, attempt ≤ i → i < attempt + fuel → advisedOk hdrs v i) →
    genLoop cfg (fun i => .response (.rateLimited (hdrs i)))
        attempt fuel sleeps =
      ⟨(false, "Max retries exceeded"), attempt + fuel,
        sleeps ++ (List.range fuel).map (fun j => v (attempt + j))⟩ := by
  intro fuel
  induction fuel with
  | zero => intro attempt sleeps _; simp [genLoop]
  | succ fuel ih =>
    intro attempt sleeps hadv
    have hme := hadv attempt (le_refl _) (by omega)
    unfold advisedOk at hme
    rcases hh : hdrs attempt with _ | s
    · simp only [hh] at hme
      simp only [genLoop, hh]
      rw [ih (attempt + 1) (sleeps ++ [(2 : Int) ^ attempt])
        (fun i h1 h2 => hadv i (by omega) (by omega))]
      simp only [GenOutcome.mk.injEq]
      refine ⟨trivial, by omega, ?_⟩
      rw [range_map_shift, ← hme]
      simp [List.append_assoc]
    · simp only [hh] at hme
      obtain ⟨hp, hnn⟩ := hme
      simp only [genLoop, hh, hp]
      rw [if_neg (by omega)]
      rw [ih (attempt + 1) (sleeps ++ [v attempt])
        (fun i h1 h2 => hadv i (by omega) (by omega))]
      simp only [GenOutcome.mk.injEq]
      refine ⟨trivial, by omega, ?_⟩
      rw [range_map_shift]
      simp [List.append_assoc]

/-- C4: when every attempt receives HTTP 429, `generate_command` sleeps
for the server-advised `Retry-After` value when the header is provided
and for `2 ^ attempt` seconds otherwise, makes exactly `max_retries`
requests, and then returns the `Max retries exceeded` failure. -/
theorem C4_rate_limit_retries (cfg : ClientConfig) (hdrs : Nat → Option String)
    (v : Nat → Int) (hv : ∀ i, i < cfg.maxRetries → advisedOk hdrs v i) :
    generate_command cfg (fun i => .response (.rateLimited (hdrs i))) =
      ⟨(false, "Max retries exceeded"), cfg.maxRetries,
        (List.range cfg.maxRetries).map v⟩ := by
  unfold generate_command
  rw [genLoop_all429 cfg hdrs v cfg.maxRetries 0 []
    (fun i h1 h2 => hv i (by omega))]
  simp only [GenOutcome.mk.injEq]
  refine ⟨trivial, by omega, ?_⟩
  simp only [List.nil_append]
  apply List.map_congr_left
  intro a _
  simp

theorem C4_rate_limit_retries_witness :
    generate_command {} (fun i => .response (.rateLimited none)) =
      ⟨(false, "Max retries exceeded"), 3, [1, 2, 4]⟩ :=
  (C4_rate_limit_retries {} (fun _ => none) (fun i => 2 ^ i)
    (fun _ _ => rfl)).trans (by decide)

/-- C10: a single HTTP 429 whose `Retry-After` header is not a decimal
integer makes `generate_command` return immediately — no sleep, no
retry, no `2 ^ attempt` fallback — with a failure whose message begins
with `Unexpected error:`, because `int()` raises inside the loop and the
generic exception handler catches it. -/
theorem C10_bad_retry_after (cfg : ClientConfig)
    (oracle : Nat → AttemptOutcome) (s : String) (hpos : 0 < cfg.maxRetries)
    (hparse : pyParseInt s = none)
    (h : oracle 0 = .response (.rateLimited (some s))) :
    generate_command cfg oracle =
      ⟨(false, "Unexpected error: invalid literal for int() with base 10: '"
        ++ s ++ "'"), 1, []⟩ ∧
    ∃ rest, ("Unexpected error: invalid literal for int() with base 10: '"
      ++ s ++ "'").data = ("Unexpected error:" : String).data ++ rest := by
  refine ⟨?_, ?_⟩
  · rw [genLoop_first cfg oracle hpos]
    simp [genLoop, h, hparse]
  · refine ⟨(" invalid literal for int() with base 10: '" : String).data ++
      s.data ++ ("'" : String).data, ?_⟩
    have hA : ("Unexpected error: invalid literal for int() with base 10: '" :
        String).data = ("Unexpected error:" : String).data ++
        (" invalid literal for int() with base 10: '" : String).data := by
      decide
    rw [String.data_append, String.data_append, hA]
    simp [List.append_assoc]

theorem C10_bad_retry_after_witness :
    generate_command {} (fun _ => .response (.rateLimited (some "abc"))) =
      ⟨(false,
        "Unexpected error: invalid literal for int() with base 10: 'abc'"),
        1, []⟩ :=
  ((C10_bad_retry_after {} (fun _ => .response (.rateLimited (some "abc")))
    "abc" (by decide) (by decide) rfl).1).trans (by decide)

lemma foldl_join_acc (sep : String) (l : List String) : ∀ acc : String,
    ∃ t, l.foldl (fun a q => a ++ sep ++ q) acc = acc ++ t := by
  induction l with
  | nil => intro acc; exact ⟨"", by simp⟩
  | cons q rest ih =>
    intro acc
    obtain ⟨t, ht⟩ := ih (acc ++ sep ++ q)
    refine ⟨sep ++ q ++ t, ?_⟩
    simp only [List.foldl_cons]
    rw [ht]
    simp [String.append_assoc]

lemma foldl_join_mem (sep s : String) : ∀ (l : List String) (acc : String),
    s ∈ l → ∃ a b, l.foldl (fun x q => x ++ sep ++ q) acc = a ++ (s ++ b) := by
  intro l
  induction l with
  | nil => intro acc h; cases h
  | cons q rest ih =>
    intro acc h
    rcases List.mem_cons.mp h with rfl | hmem
    · obtain ⟨t, ht⟩ := foldl_join_acc sep rest (acc ++ sep ++ s)
      refine ⟨acc ++ sep, t, ?_⟩
      simp only [List.foldl_cons]
      rw [ht]
      simp [String.append_assoc]
    · obtain ⟨a, b, hab⟩ := ih (acc ++ sep ++ q) hmem
      refine ⟨a, b, ?_⟩
      simp only [List.foldl_cons]
      rw [hab]

lemma pyJoin_mem (sep : String) (parts : List String) (s : String)
    (hs : s ∈ parts) : ∃ a b, pyJoin sep parts = a ++ (s ++ b) := by
  cases parts with
  | nil => cases hs
  | cons p rest =>
    rcases List.mem_cons.mp hs with rfl | hmem
    · obtain ⟨t, ht⟩ := foldl_join_acc sep rest s
      refine ⟨"", t, ?_⟩
      simp [pyJoin, ht]
    · obtain ⟨a, b, hab⟩ := foldl_join_mem sep s rest p hmem
      exact ⟨a, b, by simp [pyJoin, hab]⟩

lemma pySliceLast_eq_takeLast (k : Nat) (l : List String) (hk : k ≠ 0) :
    pySliceLast k l = takeLast k l := by
  simp [pySliceLast, takeLast, hk]

lemma format_history_nonempty (ctx : TerminalContext)
    (h : ctx.commandHistory ≠ []) :
    format_terminal_history ctx = numberedBlock (takeLast 5 ctx.commandHistory) := by
  unfold format_terminal_history numberedBlock
  have h1 : ctx.commandHistory.isEmpty = false := by
    simp [List.isEmpty_iff, h]
  rw [h1]
  simp only [Bool.false_eq_true, if_false]
  rw [pySliceLast_eq_takeLast 5 ctx.commandHistory (by omega)]
  have hlen : 0 < (takeLast 5 ctx.commandHistory).length := by
    simp only [takeLast, List.length_drop]
    have : ctx.commandHistory.length ≠ 0 := by
      simpa [List.length_eq_zero] using h
    omega
  have h2 : (takeLast 5 ctx.commandHistory).isEmpty = false := by
    cases hcl : takeLast 5 ctx.commandHistory with
    | nil => rw [hcl] at hlen; simp at hlen
    | cons a l => rfl
  rw [h2]
  simp

/-- C9: for every query and context, the prompt parts assembled by
`build_prompt` contain the no-previous-commands sentinel when the
history is empty (and the sentinel occurs inside the joined prompt
string), contain the error block exactly when `last_error` is non-empty
(11 parts with the error line at index 4, versus 10 parts with the
system block there), and render at most the last 5 history entries,
numbered from 1, most recent last, when the history is non-empty. -/
theorem C9_prompt_structure (query cwd : String) (ctx : TerminalContext) :
    (ctx.commandHistory = [] →
      (build_promptParts query ctx)[3]? =
        some "No previous commands in history." ∧
      ∃ a b, build_prompt query ctx cwd =
        a ++ ("No previous commands in history." ++ b)) ∧
    ((ctx.lastError = none ∨ ctx.lastError = some "") →
      (build_promptParts query ctx).length = 10 ∧
      (build_promptParts query ctx)[4]? = some (format_system_context ctx)) ∧
    (∀ e, ctx.lastError = some e → e ≠ "" →
      (build_promptParts query ctx).length = 11 ∧
      (build_promptParts query ctx)[4]? =
        some ("Last error message: " ++ e)) ∧
    (ctx.commandHistory ≠ [] →
      (build_promptParts query ctx)[3]? =
        some (numberedBlock (takeLast 5 ctx.commandHistory)) ∧
      (takeLast 5 ctx.commandHistory).length ≤ 5) := by
  refine ⟨?_, ?_, ?_, ?_⟩
  · intro hhist
    constructor
    · by_cases herr : format_error_context ctx = "" <;>
        simp [build_promptParts, herr, format_terminal_history, hhist]
    · have hft : format_terminal_history
          { ctx with workingDirectory := cwd } =
          "No previous commands in history." := by
        simp [format_terminal_history, hhist]
      have hmem : "No previous commands in history." ∈
          build_promptParts query { ctx with workingDirectory := cwd } := by
        by_cases herr : format_error_context
            { ctx with workingDirectory := cwd } = "" <;>
          simp [build_promptParts, herr, hft]
      exact pyJoin_mem "\n" _ _ hmem
  · intro herr
    have herr' : format_error_context ctx = "" := by
      rcases herr with h | h <;> simp [format_error_context, h]
    simp [build_promptParts, herr']
  · intro e he hne
    have hne2 : ("Last error message: " ++ e : String) ≠ "" := by
      intro hh
      rw [String.ext_iff, String.data_append] at hh
      simp at hh
    have herr' : format_error_context ctx = "Last error message: " ++ e := by
      simp [format_error_context, he, hne]
    simp [build_promptParts, herr', hne2]
  · intro hne
    refine ⟨?_, takeLast_length_le 5 ctx.commandHistory⟩
    by_cases herr : format_error_context ctx = "" <;>
      simp [build_promptParts, herr, format_history_nonempty ctx hne]

theorem C9_prompt_structure_witness :
    ((build_promptParts "list files" sampleCtx)[3]? =
        some "No previous commands in history." ∧
      ∃ a b, build_prompt "list files" sampleCtx "/tmp" =
        a ++ ("No previous commands in history." ++ b)) ∧
    ((build_promptParts "list files" sampleCtx).length = 10 ∧
      (build_promptParts "list files" sampleCtx)[4]? =
        some (format_system_context sampleCtx)) ∧
    ((build_promptParts "list files" errCtx).length = 11 ∧
      (build_promptParts "list files" errCtx)[4]? =
        some ("Last error message: " ++ "boom")) ∧
    ((build_promptParts "list files" errCtx)[3]? =
        some (numberedBlock (takeLast 5 errCtx.commandHistory)) ∧
      (takeLast 5 errCtx.commandHistory).length ≤ 5) :=
  ⟨(C9_prompt_structure "list files" "/tmp" sampleCtx).1 rfl,
    (C9_prompt_structure "list files" "/tmp" sampleCtx).2.1 (Or.inl rfl),
    (C9_prompt_structure "list files" "/tmp" errCtx).2.2.1 "boom" rfl
      (by decide),
    (C9_prompt_structure "list files" "/tmp" errCtx).2.2.2 (by decide)⟩

end LocalWarp
